import Mathlib

set_option linter.unusedVariables false
set_option linter.unnecessarySeqFocus false

/-!
Shallow embedding of `src/tokens/user_token.rs` (twitch_oauth2):
the `UserToken` entity with its lifetime computation and refresh,
the authorization-code flow builder (`UserTokenBuilder`) and the
implicit flow builder (`ImplicitUserTokenBuilder`).

Modelling conventions:
- `std::time::Duration` is modelled as total nanoseconds (`Nat`); a Rust
  duration is `secs * 10^9 + nanos` with `nanos < 10^9`, so this encoding is
  exact and order/subtraction-preserving.  `Duration::new u64::MAX (10^9-1)`
  (the stand-in the source uses for `Duration::MAX`) becomes `maxDuration`.
- `std::time::Instant` is modelled as a `Nat` timestamp in nanoseconds;
  `instant.elapsed()` at current time `now` is `now - instant`.
- The injected HTTP-call capability and the out-of-src helpers
  `crate::refresh_token` / `crate::validate_token` are modelled as explicit
  oracle arguments; each operation additionally returns the number of times
  the network-call capability was invoked, so "no HTTP call is made" is a
  statement about that counter.
- Rust `Result<T, E>` becomes `Except E T`; the `?` operator becomes an
  explicit `match` propagating the error.
-/

deriving instance DecidableEq for Except

namespace TwitchOAuth

/-- Nanoseconds per second, the base of `std::time::Duration`. -/
def NANOS_PER_SEC : Nat := 1000000000

/-- `std::time::Duration::new secs nanos` as total nanoseconds. -/
def durNew (secs nanos : Nat) : Nat := secs * NANOS_PER_SEC + nanos

/-- `Duration::as_secs`. -/
def asSecs (d : Nat) : Nat := d / NANOS_PER_SEC

/-- `Duration::as_nanos`. -/
def asNanos (d : Nat) : Nat := d

/-- `Duration::checked_sub`: `none` exactly on underflow. -/
def checkedSub (a b : Nat) : Option Nat := if b ≤ a then some (a - b) else none

/-- `std::time::Duration::new(u64::MAX, 1_000_000_000 - 1)`, the value the
source uses in place of `Duration::MAX` (see the TODO comments in the
source). -/
def maxDuration : Nat := durNew (2 ^ 64 - 1) (NANOS_PER_SEC - 1)

/-- `TwitchTokenErrorResponse { status, message }`: the structured error body
of the provider (`{status, message}` schema). The HTTP status is modelled as
its numeric code. -/
structure TwitchTokenErrorResponse where
  status : Nat
  message : String
deriving DecidableEq, Repr

/-- `ValidationError` (from `tokens::errors`, declaration not under `src/`;
variants follow their uses in `user_token.rs` and the spec's error taxonomy:
`NotAuthorized`, `NoLogin`, `NoUserId`, plus a transport error).
`noUserId` is modelled from the spec: the enum declaration is missing from
`src/`, and the spec's taxonomy lists `NoLogin`/`NoUserId` as distinct
errors for the two omitted identity fields. -/
inductive ValidationError where
  | notAuthorized
  | noLogin
  | noUserId
  | requestError
deriving DecidableEq, Repr

/-- `RefreshTokenError` (from `tokens::errors`, declaration not under `src/`;
`NoClientSecretFound` and `NoRefreshToken` appear in `user_token.rs`, the
remaining variants are the failure modes of `crate::refresh_token` per the
spec's refresh protocol: transport error, parse error, provider error). -/
inductive RefreshTokenError where
  | requestError
  | parseError
  | twitchError (r : TwitchTokenErrorResponse)
  | noClientSecretFound
  | noRefreshToken
deriving DecidableEq, Repr

/-- The result of `crate::validate_token` (declaration not under `src/`):
fields follow their uses in `UserToken::from_existing` and the validation
collaborator contract (client id, optional login, optional user id, optional
scopes, remaining lifetime). -/
structure ValidatedToken where
  client_id : String
  login : Option String
  user_id : Option String
  scopes : Option (List String)
  expires_in : Nat
deriving DecidableEq, Repr

/-- `UserToken` (src/tokens/user_token.rs, lines 22-42). `AccessToken`,
`ClientId`, `ClientSecret`, `RefreshToken` and `Scope` are opaque strings;
`struct_created` is the captured `Instant` (nanosecond timestamp). -/
structure UserToken where
  access_token : String
  client_id : String
  client_secret : Option String
  login : String
  user_id : String
  refresh_token : Option String
  expires_in : Nat
  struct_created : Nat
  scopes : List String
  never_expiring : Bool
deriving DecidableEq, Repr

/-- `UserToken::from_existing_unchecked` (lines 64-89). `now` is
`Instant::now()` at construction. -/
def UserToken.from_existing_unchecked (access_token : String)
    (refresh_token : Option String) (client_id : String)
    (client_secret : Option String) (login user_id : String)
    (scopes : Option (List String)) (expires_in : Option Nat) (now : Nat) :
    UserToken :=
  { access_token := access_token
    client_id := client_id
    client_secret := client_secret
    login := login
    user_id := user_id
    refresh_token := refresh_token
    expires_in := expires_in.getD (durNew (2 ^ 64 - 1) (NANOS_PER_SEC - 1))
    struct_created := now
    scopes := scopes.getD []
    never_expiring := expires_in.isNone }

/-- `UserToken::from_existing` (lines 94-122). The outcome of
`crate::validate_token http_client access_token` (code not under `src/`) is
passed in as `validated`; the token-construction logic below is translated
from the source: `login.ok_or(NoLogin)?`, `user_id.ok_or(NoLogin)?` (the
source uses `NoLogin` for BOTH identity fields, line 112), and
`Some(expires_in).filter(not (as_secs = 0 and as_nanos = 0))`. -/
def UserToken.from_existing (validated : Except ValidationError ValidatedToken)
    (access_token : String) (refresh_token : Option String)
    (client_secret : Option String) (now : Nat) :
    Except ValidationError UserToken :=
  match validated with
  | .error e => .error e
  | .ok v =>
    match v.login with
    | none => .error ValidationError.noLogin
    | some login =>
      match v.user_id with
      | none => .error ValidationError.noLogin
      | some user_id =>
        .ok (UserToken.from_existing_unchecked access_token refresh_token
          v.client_id client_secret login user_id v.scopes
          ((some v.expires_in).filter (fun d =>
            !(asSecs d == 0 && asNanos d == 0)))
          now)

/-- `UserToken::set_secret` (line 140). -/
def UserToken.set_secret (t : UserToken) (secret : Option String) : UserToken :=
  { t with client_secret := secret }

/-- `UserToken::never_expires` (line 128). -/
def UserToken.never_expires (t : UserToken) : Bool := t.never_expiring

/-- `TwitchToken::expires_in` for `UserToken` (lines 182-192): the
remaining-lifetime query, evaluated at current time `now`.
`struct_created.elapsed()` is `now - struct_created`;
`checked_sub(..).unwrap_or_default()` is `(checkedSub ..).getD 0`. -/
def UserToken.expiresIn (t : UserToken) (now : Nat) : Nat :=
  if !t.never_expiring then
    (checkedSub t.expires_in (now - t.struct_created)).getD 0
  else
    durNew (2 ^ 64 - 1) (NANOS_PER_SEC - 1)

/-- `TwitchToken::refresh_token` for `UserToken` (lines 155-180). `call`
models `crate::refresh_token http_client token client_id client_secret`
(code not under `src/`): it returns the new
`(access_token, expires, refresh_token)` triple or an error. The result is
`(outcome, the token entity after the call, number of network calls made)`.
The source first clones the client secret (else `NoClientSecretFound`),
then `take`s the stored refresh token — mutating `self.refresh_token` to
`None` — (else `NoRefreshToken`), performs the call, propagates its error
with `?`, and on success assigns `access_token`, `expires_in` and
`refresh_token` (it does not touch `struct_created`). -/
def UserToken.refreshToken (t : UserToken)
    (call : String → String → String →
      Except RefreshTokenError (String × Nat × Option String)) :
    Except RefreshTokenError Unit × UserToken × Nat :=
  match t.client_secret with
  | some client_secret =>
    match t.refresh_token with
    | some token =>
      let taken := { t with refresh_token := none }
      match call token t.client_id client_secret with
      | .error e => (.error e, taken, 1)
      | .ok (access_token, expires, refresh_token) =>
        (.ok (), { taken with
          access_token := access_token
          expires_in := expires
          refresh_token := refresh_token }, 1)
    | none => (.error RefreshTokenError.noRefreshToken, t, 0)
  | none => (.error RefreshTokenError.noClientSecretFound, t, 0)

/-- `UserTokenExchangeError` (from `tokens::errors`, declaration not under
`src/`; variants follow their uses in `UserTokenBuilder::get_user_token`:
transport error, `serde_json` parse error (the `?` on `from_slice`),
`StateMismatch`, `TwitchError` carrying a `TwitchTokenErrorResponse`, and
the `From<ValidationError>` conversion used by `map_err(Into::into)`). -/
inductive UserTokenExchangeError where
  | requestError
  | parseError
  | stateMismatch
  | twitchError (r : TwitchTokenErrorResponse)
  | validationError (e : ValidationError)
deriving DecidableEq, Repr

/-- `ImplicitUserTokenExchangeError` (from `tokens::errors`, declaration not
under `src/`; `StateMismatch` and `TwitchError { error, description }` appear
in `ImplicitUserTokenBuilder::get_user_token`, `validationError` is the
`From<ValidationError>` conversion used by `map_err(Into::into)`).
`malformedCallback` is modelled from the spec: the enum declaration is
missing from `src/` and the spec's error taxonomy lists `MalformedCallback`
(implicit-flow callback with neither a token nor an error) as a distinct
error; no code under `src/` ever constructs it. -/
inductive ImplicitUserTokenExchangeError where
  | requestError
  | stateMismatch
  | twitchError (error : Option String) (description : Option String)
  | validationError (e : ValidationError)
  | malformedCallback
deriving DecidableEq, Repr

/-- The HTTP response handed back by the injected HTTP-call capability:
the status code, together with the outcome of the two `serde_json`
deserializations `get_user_token` may apply to its body (`none` = the body
does not parse as that shape). `tokenBody` is the
`TwitchTokenResponse { access_token, refresh_token, .. }` success-body
parse; `errorBody` is the `TwitchTokenErrorResponse` error-body parse. -/
structure HttpResponseModel where
  status_code : Nat
  errorBody : Option TwitchTokenErrorResponse
  tokenBody : Option (String × Option String)
deriving DecidableEq, Repr

/-- `UserTokenBuilder` (lines 200-208): the authorization-code flow builder.
The embedded `oauth2::Client` carries no state the claims depend on beyond
what is duplicated in these fields, so it is not modelled separately. -/
structure UserTokenBuilder where
  scopes : List String
  csrf : Option String
  force_verify : Bool
  redirect_url : String
  client_id : String
  client_secret : String
deriving DecidableEq, Repr

/-- `UserTokenBuilder::new` (lines 219-240). -/
def UserTokenBuilder.new (client_id client_secret redirect_url : String) :
    UserTokenBuilder :=
  { scopes := []
    csrf := none
    force_verify := false
    redirect_url := redirect_url
    client_id := client_id
    client_secret := client_secret }

/-- `UserTokenBuilder::set_scopes` (lines 243-246). -/
def UserTokenBuilder.set_scopes (b : UserTokenBuilder) (scopes : List String) :
    UserTokenBuilder :=
  { b with scopes := scopes }

/-- `UserTokenBuilder::force_verify` (lines 252-255). -/
def UserTokenBuilder.forceVerify (b : UserTokenBuilder) (v : Bool) :
    UserTokenBuilder :=
  { b with force_verify := v }

/-- `UserTokenBuilder::set_csrf` (line 281). -/
def UserTokenBuilder.set_csrf (b : UserTokenBuilder) (csrf : String) :
    UserTokenBuilder :=
  { b with csrf := some csrf }

/-- `UserTokenBuilder::generate_url` (lines 260-275). The fresh random CSRF
token produced by `oauth2::CsrfToken::new_random` is injected as `fresh`;
the query parameters of the produced URL follow `oauth2::authorize_url`
(external crate) plus the `force_verify` extra parameter added by the
source. Returns `((url query params, csrf), builder with csrf stored)`. -/
def UserTokenBuilder.generate_url (b : UserTokenBuilder) (fresh : String) :
    (List (String × String) × String) × UserTokenBuilder :=
  let params :=
    [("response_type", "code"),
     ("client_id", b.client_id),
     ("state", fresh),
     ("redirect_uri", b.redirect_url),
     ("scope", String.intercalate " " b.scopes),
     ("force_verify", if b.force_verify then "true" else "false")]
  ((params, fresh), { b with csrf := some fresh })

/-- `UserTokenBuilder::get_user_token` (lines 286-355). The injected HTTP
call on the token endpoint is modelled by `httpResp` (its outcome; `.error`
is a transport failure), and the `crate::validate_token` call made inside
`UserToken::from_existing` by `validate`. The result carries the number of
network calls that were issued (token-endpoint call and validation call
each count one). The source: CSRF gate first (`StateMismatch` when `csrf`
is `None` or its secret differs from `state`), then the POST; status `OK`
falls through, `BAD_REQUEST`/`FORBIDDEN` parse the error body (a parse
failure becomes a parse error via `?`), any other status yields
`TwitchError` with the raw status and the message `"<censored>"`; the
success body is then parsed and handed to `UserToken::from_existing`
together with the builder's client secret. -/
def UserTokenBuilder.get_user_token (b : UserTokenBuilder)
    (httpResp : Except Unit HttpResponseModel)
    (validate : Except ValidationError ValidatedToken)
    (state code : String) (now : Nat) :
    Except UserTokenExchangeError UserToken × Nat :=
  match b.csrf with
  | some csrf =>
    if csrf ≠ state then
      (.error UserTokenExchangeError.stateMismatch, 0)
    else
      match httpResp with
      | .error _ => (.error UserTokenExchangeError.requestError, 1)
      | .ok resp =>
        if resp.status_code = 200 then
          match resp.tokenBody with
          | none => (.error UserTokenExchangeError.parseError, 1)
          | some (access_token, refresh_token) =>
            match UserToken.from_existing validate access_token refresh_token
                (some b.client_secret) now with
            | .error e => (.error (UserTokenExchangeError.validationError e), 2)
            | .ok t => (.ok t, 2)
        else if resp.status_code = 400 ∨ resp.status_code = 403 then
          match resp.errorBody with
          | none => (.error UserTokenExchangeError.parseError, 1)
          | some body => (.error (UserTokenExchangeError.twitchError body), 1)
        else
          (.error (UserTokenExchangeError.twitchError
            { status := resp.status_code, message := "<censored>" }), 1)
  | none => (.error UserTokenExchangeError.stateMismatch, 0)

/-- `ImplicitUserTokenBuilder` (lines 361-366). -/
structure ImplicitUserTokenBuilder where
  scopes : List String
  csrf : Option String
  force_verify : Bool
deriving DecidableEq, Repr

/-- `ImplicitUserTokenBuilder::new` (lines 377-394). -/
def ImplicitUserTokenBuilder.new : ImplicitUserTokenBuilder :=
  { scopes := []
    csrf := none
    force_verify := false }

/-- `ImplicitUserTokenBuilder::generate_url` (lines 414-432); same shape as
the authorization-code version but with `use_implicit_flow()`
(`response_type=token`). -/
def ImplicitUserTokenBuilder.generate_url (b : ImplicitUserTokenBuilder)
    (client_id redirect_url fresh : String) :
    (List (String × String) × String) × ImplicitUserTokenBuilder :=
  let params :=
    [("response_type", "token"),
     ("client_id", client_id),
     ("state", fresh),
     ("redirect_uri", redirect_url),
     ("scope", String.intercalate " " b.scopes),
     ("force_verify", if b.force_verify then "true" else "false")]
  ((params, fresh), { b with csrf := some fresh })

/-- `ImplicitUserTokenBuilder::get_user_token` (lines 526-563). The CSRF
gate compares the stored secret against `state.unwrap_or("")`
(`state.getD ""`); then the `(access_token, error, error_description)`
triple is matched: `(Some token, None, None)` validates the token via
`UserToken::from_existing` with no refresh token and no client secret
(that is the one network call), every other combination fails with
`TwitchError` carrying the supplied `error`/`error_description`. -/
def ImplicitUserTokenBuilder.get_user_token (b : ImplicitUserTokenBuilder)
    (validate : Except ValidationError ValidatedToken)
    (state access_token error error_description : Option String) (now : Nat) :
    Except ImplicitUserTokenExchangeError UserToken × Nat :=
  match b.csrf with
  | some csrf =>
    if csrf ≠ state.getD "" then
      (.error ImplicitUserTokenExchangeError.stateMismatch, 0)
    else
      match access_token, error, error_description with
      | some token, none, none =>
        match UserToken.from_existing validate token none none now with
        | .error e => (.error (ImplicitUserTokenExchangeError.validationError e), 1)
        | .ok t => (.ok t, 1)
      | _, err, description =>
        (.error (ImplicitUserTokenExchangeError.twitchError err description), 0)
  | none => (.error ImplicitUserTokenExchangeError.stateMismatch, 0)

/-! Shared concrete sample values used by several theorems below. -/

/-- A refreshable sample token: client secret and refresh token present. -/
def sampleToken : UserToken :=
  { access_token := "old"
    client_id := "cid"
    client_secret := some "sec"
    login := "somelogin"
    user_id := "42"
    refresh_token := some "r"
    expires_in := durNew 100 0
    struct_created := 0
    scopes := []
    never_expiring := false }

/-- A sample token with neither a client secret nor a refresh token. -/
def bareToken : UserToken :=
  { sampleToken with client_secret := none, refresh_token := none }

/-- A sample validation result with both identity fields present. -/
def sampleValidated : ValidatedToken :=
  { client_id := "cid"
    login := some "somelogin"
    user_id := some "42"
    scopes := some ["chat:read"]
    expires_in := durNew 14400 0 }

/-! Theorems, one per claim of the specification. -/

/-- C4: for every `UserToken`, the remaining-lifetime query returns the
maximum representable duration when `never_expiring` is true and otherwise
`expires_in` minus the time elapsed since construction, clamped at zero —
it never underflows and never goes negative, for any elapsed time
including one exceeding `expires_in`. -/
theorem C4_remaining_lifetime_clamped (t : UserToken) (now : Nat) :
    (t.expiresIn now : Int) =
      if t.never_expiring then (maxDuration : Int)
      else max 0 ((t.expires_in : Int) - ((now - t.struct_created : Nat) : Int)) := by
  unfold UserToken.expiresIn checkedSub maxDuration
  cases h : t.never_expiring <;> simp [h] <;> split <;> simp <;> omega

/-- C6: a token assembled via validation from a response whose remaining
lifetime is exactly zero gets `never_expiring = true` (and an unbounded
remaining-lifetime query); any non-zero reported lifetime gives
`never_expiring = false` with that lifetime as `expires_in`. -/
theorem C6_zero_lifetime_never_expiring (v : ValidatedToken)
    (login uid a : String) (rt cs : Option String) (now : Nat)
    (hl : v.login = some login) (hu : v.user_id = some uid) :
    ∃ t : UserToken,
      UserToken.from_existing (.ok v) a rt cs now = .ok t ∧
      (v.expires_in = 0 →
        t.never_expiring = true ∧ ∀ m : Nat, t.expiresIn m = maxDuration) ∧
      (v.expires_in ≠ 0 →
        t.never_expiring = false ∧ t.expires_in = v.expires_in) := by
  simp only [UserToken.from_existing, hl, hu]
  refine ⟨_, rfl, ?_, ?_⟩ <;> intro h
  · simp only [Option.filter, asSecs, asNanos, h]
    refine ⟨rfl, fun m => ?_⟩
    simp [UserToken.expiresIn, UserToken.from_existing_unchecked, maxDuration]
  · have hnz : (asNanos v.expires_in == 0) = false := by
      simp [asNanos, h]
    simp only [Option.filter, hnz, Bool.and_false, Bool.not_false, if_true]
    exact ⟨rfl, rfl⟩

/-- Witness for C6: concrete instantiations at a zero and at a non-zero
reported lifetime. -/
theorem C6_zero_lifetime_never_expiring_witness :
    (∃ t : UserToken,
      UserToken.from_existing (.ok { sampleValidated with expires_in := 0 })
          "a" none none 5 = .ok t ∧
      (({ sampleValidated with expires_in := 0 } : ValidatedToken).expires_in = 0 →
        t.never_expiring = true ∧ ∀ m : Nat, t.expiresIn m = maxDuration) ∧
      (({ sampleValidated with expires_in := 0 } : ValidatedToken).expires_in ≠ 0 →
        t.never_expiring = false ∧
        t.expires_in = ({ sampleValidated with expires_in := 0 } : ValidatedToken).expires_in)) ∧
    (∃ t : UserToken,
      UserToken.from_existing (.ok sampleValidated) "a" none none 5 = .ok t ∧
      (sampleValidated.expires_in = 0 →
        t.never_expiring = true ∧ ∀ m : Nat, t.expiresIn m = maxDuration) ∧
      (sampleValidated.expires_in ≠ 0 →
        t.never_expiring = false ∧ t.expires_in = sampleValidated.expires_in)) :=
  ⟨C6_zero_lifetime_never_expiring { sampleValidated with expires_in := 0 }
      "somelogin" "42" "a" none none 5 rfl rfl,
   C6_zero_lifetime_never_expiring sampleValidated
      "somelogin" "42" "a" none none 5 rfl rfl⟩

/-- C10: in the implicit-flow exchange, a `state` of `none` is compared as
the empty string: the outcome is identical to supplying `some ""`, and for
every builder whose stored CSRF secret is non-empty the call fails with
`StateMismatch` after zero network calls. -/
theorem C10_none_state_as_empty (b : ImplicitUserTokenBuilder) (s : String)
    (validate : Except ValidationError ValidatedToken)
    (a e d : Option String) (now : Nat)
    (hc : b.csrf = some s) (hs : s ≠ "") :
    b.get_user_token validate none a e d now =
      b.get_user_token validate (some "") a e d now ∧
    b.get_user_token validate none a e d now =
      (.error ImplicitUserTokenExchangeError.stateMismatch, 0) := by
  unfold ImplicitUserTokenBuilder.get_user_token
  rw [hc]
  simp [Option.getD, hs]

/-- Witness for C10: a concrete builder with a non-empty stored CSRF secret,
exchanged with `state = none`. -/
theorem C10_none_state_as_empty_witness :
    ({ ImplicitUserTokenBuilder.new with csrf := some "tok" }
        : ImplicitUserTokenBuilder).get_user_token
        (.ok sampleValidated) none (some "abc") none none 0 =
      ({ ImplicitUserTokenBuilder.new with csrf := some "tok" }
        : ImplicitUserTokenBuilder).get_user_token
        (.ok sampleValidated) (some "") (some "abc") none none 0 ∧
    ({ ImplicitUserTokenBuilder.new with csrf := some "tok" }
        : ImplicitUserTokenBuilder).get_user_token
        (.ok sampleValidated) none (some "abc") none none 0 =
      (.error ImplicitUserTokenExchangeError.stateMismatch, 0) :=
  C10_none_state_as_empty _ "tok" (.ok sampleValidated) (some "abc") none none 0
    rfl (by decide)

/-- Helper: once the authorization-code CSRF gate is passed, no later branch
of `get_user_token` produces `StateMismatch`. -/
theorem auth_pass_ne_mismatch (b : UserTokenBuilder)
    (httpResp : Except Unit HttpResponseModel)
    (validate : Except ValidationError ValidatedToken)
    (state code : String) (now : Nat) (h : b.csrf = some state) :
    (b.get_user_token httpResp validate state code now).1 ≠
      .error UserTokenExchangeError.stateMismatch := by
  unfold UserTokenBuilder.get_user_token
  simp only [h]
  rw [if_neg (fun hh => hh rfl)]
  cases httpResp with
  | error _ => simp
  | ok resp =>
    simp only
    split
    · cases resp.tokenBody with
      | none => simp
      | some tb =>
        obtain ⟨x, y⟩ := tb
        simp only
        split <;> simp
    · split
      · cases resp.errorBody <;> simp
      · simp

/-- Helper: once the implicit-flow CSRF gate is passed, no later branch of
`get_user_token` produces `StateMismatch`. -/
theorem implicit_pass_ne_mismatch (b : ImplicitUserTokenBuilder)
    (validate : Except ValidationError ValidatedToken) (s : String)
    (a e d : Option String) (now : Nat) (h : b.csrf = some s) :
    (b.get_user_token validate (some s) a e d now).1 ≠
      .error ImplicitUserTokenExchangeError.stateMismatch := by
  unfold ImplicitUserTokenBuilder.get_user_token
  simp only [h, Option.getD_some]
  rw [if_neg (fun hh => hh rfl)]
  rcases a with _ | t <;> rcases e with _ | e1 <;> rcases d with _ | d1
  all_goals simp only
  all_goals first
    | (split <;> simp)
    | simp

/-- C1: in both flow builders, the exchange first compares the supplied
state byte-for-byte against the stored CSRF secret: when no `generate_url`
stored a secret, or the supplied state differs from it, the exchange
returns `StateMismatch` with zero network calls; when the supplied state
equals exactly the CSRF value returned by the most recent `generate_url`,
the CSRF check passes (the result is never `StateMismatch`). -/
theorem C1_csrf_gate (b b0 : UserTokenBuilder) (ib : ImplicitUserTokenBuilder)
    (ib0 : ImplicitUserTokenBuilder)
    (httpResp : Except Unit HttpResponseModel)
    (validate : Except ValidationError ValidatedToken)
    (state code fresh cid rurl istate : String)
    (a e d : Option String) (now : Nat) :
    (b.csrf ≠ some state →
      b.get_user_token httpResp validate state code now =
        (.error UserTokenExchangeError.stateMismatch, 0)) ∧
    (((b0.generate_url fresh).2.get_user_token httpResp validate fresh code now).1 ≠
      .error UserTokenExchangeError.stateMismatch) ∧
    (ib.csrf ≠ some istate →
      ib.get_user_token validate (some istate) a e d now =
        (.error ImplicitUserTokenExchangeError.stateMismatch, 0)) ∧
    (((ib0.generate_url cid rurl fresh).2.get_user_token validate (some fresh)
        a e d now).1 ≠ .error ImplicitUserTokenExchangeError.stateMismatch) := by
  refine ⟨?_, ?_, ?_, ?_⟩
  · intro hne
    unfold UserTokenBuilder.get_user_token
    cases hc : b.csrf with
    | none => rfl
    | some s =>
      rw [hc] at hne
      have : s ≠ state := fun h => hne (by rw [h])
      simp [this]
  · exact auth_pass_ne_mismatch _ httpResp validate fresh code now rfl
  · intro hne
    unfold ImplicitUserTokenBuilder.get_user_token
    cases hc : ib.csrf with
    | none => rfl
    | some s =>
      rw [hc] at hne
      have : s ≠ istate := fun h => hne (by rw [h])
      simp [Option.getD, this]
  · exact implicit_pass_ne_mismatch _ validate fresh a e d now rfl

/-- Witness for C1: a concrete builder whose stored secret differs from the
supplied state, alongside freshly generated matching exchanges. -/
theorem C1_csrf_gate_witness :
    (({ UserTokenBuilder.new "cid" "sec" "https://r" with csrf := some "x" }
        : UserTokenBuilder).csrf ≠ some "y" →
      ({ UserTokenBuilder.new "cid" "sec" "https://r" with csrf := some "x" }
        : UserTokenBuilder).get_user_token (.error ()) (.ok sampleValidated)
          "y" "code" 0 =
        (.error UserTokenExchangeError.stateMismatch, 0)) ∧
    ((((UserTokenBuilder.new "cid" "sec" "https://r").generate_url
        "fresh").2.get_user_token (.error ()) (.ok sampleValidated) "fresh"
          "code" 0).1 ≠ .error UserTokenExchangeError.stateMismatch) ∧
    (({ ImplicitUserTokenBuilder.new with csrf := some "x" }
        : ImplicitUserTokenBuilder).csrf ≠ some "y" →
      ({ ImplicitUserTokenBuilder.new with csrf := some "x" }
        : ImplicitUserTokenBuilder).get_user_token (.ok sampleValidated)
          (some "y") (some "tok") none none 0 =
        (.error ImplicitUserTokenExchangeError.stateMismatch, 0)) ∧
    (((ImplicitUserTokenBuilder.new.generate_url "cid" "https://r"
        "fresh").2.get_user_token (.ok sampleValidated) (some "fresh")
          (some "tok") none none 0).1 ≠
      .error ImplicitUserTokenExchangeError.stateMismatch) :=
  C1_csrf_gate _ (UserTokenBuilder.new "cid" "sec" "https://r") _
    ImplicitUserTokenBuilder.new (.error ()) (.ok sampleValidated)
    "y" "code" "fresh" "cid" "https://r" "y" (some "tok") none none 0

/-- C2 counterexample: for a token holding a client secret and a refresh
token, a failing network exchange does NOT leave the entity unchanged —
the stored refresh token was `take`n before the call and stays `None`
afterwards, while the claim says every field keeps its value. -/
theorem C2_failed_refresh_mutates_token :
    (sampleToken.refreshToken
        (fun _ _ _ => .error RefreshTokenError.requestError)).1 =
      .error RefreshTokenError.requestError ∧
    sampleToken.refresh_token = some "r" ∧
    (sampleToken.refreshToken
        (fun _ _ _ => .error RefreshTokenError.requestError)).2.1.refresh_token =
      none ∧
    (sampleToken.refreshToken
        (fun _ _ _ => .error RefreshTokenError.requestError)).2.1 ≠
      sampleToken := by decide

/-- C2 amended: when `refresh_token` fails before any network call was made
(missing client secret or missing refresh token, call count 0), the entity
is completely unchanged; when the network exchange itself fails (call count
1), every field except `refresh_token` is unchanged, but the stored refresh
token has been consumed and is `None`. -/
theorem C2_failed_refresh_state (t : UserToken)
    (call : String → String → String →
      Except RefreshTokenError (String × Nat × Option String))
    (e : RefreshTokenError) (h : (t.refreshToken call).1 = .error e) :
    ((t.refreshToken call).2.2 = 0 → (t.refreshToken call).2.1 = t) ∧
    ((t.refreshToken call).2.2 = 1 →
      (t.refreshToken call).2.1 = { t with refresh_token := none }) := by
  unfold UserToken.refreshToken at *
  cases hcs : t.client_secret with
  | none => simp [hcs]
  | some cs =>
    cases hrt : t.refresh_token with
    | none => simp [hcs, hrt]
    | some rt =>
      simp only [hcs, hrt] at h ⊢
      cases hc : call rt t.client_id cs with
      | error e2 => simp [hc]
      | ok v =>
        rw [hc] at h
        obtain ⟨x, y, z⟩ := v
        simp at h

/-- Witness for C2 amended: a concrete failing network exchange. -/
theorem C2_failed_refresh_state_witness :
    ((sampleToken.refreshToken
        (fun _ _ _ => .error RefreshTokenError.requestError)).2.2 = 0 →
      (sampleToken.refreshToken
        (fun _ _ _ => .error RefreshTokenError.requestError)).2.1 =
        sampleToken) ∧
    ((sampleToken.refreshToken
        (fun _ _ _ => .error RefreshTokenError.requestError)).2.2 = 1 →
      (sampleToken.refreshToken
        (fun _ _ _ => .error RefreshTokenError.requestError)).2.1 =
        { sampleToken with refresh_token := none }) :=
  C2_failed_refresh_state sampleToken
    (fun _ _ _ => .error RefreshTokenError.requestError)
    RefreshTokenError.requestError (by decide)

/-- C3 (code bug): a successful refresh replaces `access_token`,
`expires_in` and `refresh_token`, but does NOT reset `struct_created`, the
instant remaining lifetime is measured from. Evaluated at the failing
input: `sampleToken` was constructed at instant 0; refreshing it with a
server response granting 14400 s and then querying the remaining lifetime
100 s after construction yields 14300 s — the fresh grant is discounted by
time elapsed before the refresh, where the claim (reset `created_at`)
would give the full 14400 s. -/
theorem C3_refresh_keeps_struct_created :
    (sampleToken.refreshToken
        (fun _ _ _ => .ok ("new", durNew 14400 0, some "r2"))).1 = .ok () ∧
    (sampleToken.refreshToken
        (fun _ _ _ => .ok ("new", durNew 14400 0, some "r2"))).2.1 =
      { sampleToken with
          access_token := "new"
          expires_in := durNew 14400 0
          refresh_token := some "r2"
          struct_created := 0 } ∧
    (sampleToken.refreshToken
        (fun _ _ _ => .ok ("new", durNew 14400 0, some "r2"))).2.1.expiresIn
        (durNew 100 0) = durNew 14300 0 ∧
    (sampleToken.refreshToken
        (fun _ _ _ => .ok ("new", durNew 14400 0, none))).2.1.refresh_token =
      none := by
  refine ⟨by decide, by decide, ?_, by decide⟩
  show UserToken.expiresIn _ _ = _
  unfold UserToken.expiresIn checkedSub
  norm_num [UserToken.refreshToken, sampleToken, durNew, NANOS_PER_SEC]

/-- C5 counterexample: a token lacking a refresh token does NOT always fail
with `NoRefreshToken`: when the client secret is also absent, the missing
client secret is detected first and the outcome is `NoClientSecretFound`. -/
theorem C5_no_secret_takes_precedence :
    bareToken.refresh_token = none ∧
    (bareToken.refreshToken
        (fun _ _ _ => .error RefreshTokenError.requestError)).1 =
      .error RefreshTokenError.noClientSecretFound ∧
    RefreshTokenError.noClientSecretFound ≠
      RefreshTokenError.noRefreshToken := by decide

/-- C5 amended: refresh without a client secret always fails with
`NoClientSecretFound` and zero network calls, leaving the token unchanged;
refresh with a client secret but without a refresh token always fails with
`NoRefreshToken` and zero network calls, leaving the token unchanged (the
missing client secret is checked first and takes precedence). -/
theorem C5_refresh_prerequisites (t : UserToken)
    (call : String → String → String →
      Except RefreshTokenError (String × Nat × Option String)) :
    (t.client_secret = none →
      t.refreshToken call =
        (.error RefreshTokenError.noClientSecretFound, t, 0)) ∧
    (∀ s, t.client_secret = some s → t.refresh_token = none →
      t.refreshToken call = (.error RefreshTokenError.noRefreshToken, t, 0)) := by
  constructor
  · intro h
    unfold UserToken.refreshToken
    simp [h]
  · intro s hs hr
    unfold UserToken.refreshToken
    simp [hs, hr]

/-- Witness for C5 amended: concrete tokens missing the client secret and
missing only the refresh token. -/
theorem C5_refresh_prerequisites_witness :
    ((bareToken.client_secret = none →
      bareToken.refreshToken (fun _ _ _ => .error RefreshTokenError.requestError) =
        (.error RefreshTokenError.noClientSecretFound, bareToken, 0)) ∧
    (∀ s, bareToken.client_secret = some s → bareToken.refresh_token = none →
      bareToken.refreshToken (fun _ _ _ => .error RefreshTokenError.requestError) =
        (.error RefreshTokenError.noRefreshToken, bareToken, 0))) ∧
    (({ sampleToken with refresh_token := none } : UserToken).client_secret = none →
      ({ sampleToken with refresh_token := none } : UserToken).refreshToken
          (fun _ _ _ => .error RefreshTokenError.requestError) =
        (.error RefreshTokenError.noClientSecretFound,
          { sampleToken with refresh_token := none }, 0)) ∧
    (∀ s, ({ sampleToken with refresh_token := none } : UserToken).client_secret = some s →
      ({ sampleToken with refresh_token := none } : UserToken).refresh_token = none →
      ({ sampleToken with refresh_token := none } : UserToken).refreshToken
          (fun _ _ _ => .error RefreshTokenError.requestError) =
        (.error RefreshTokenError.noRefreshToken,
          { sampleToken with refresh_token := none }, 0)) :=
  ⟨C5_refresh_prerequisites bareToken
      (fun _ _ _ => .error RefreshTokenError.requestError),
   C5_refresh_prerequisites { sampleToken with refresh_token := none }
      (fun _ _ _ => .error RefreshTokenError.requestError)⟩

/-- C7 counterexample: with matching CSRF state and neither a token nor an
error supplied, the implicit exchange fails with the SAME provider-error
constructor (`TwitchError` with both fields `None`) used for every other
failing combination — not with the distinct `MalformedCallback` error the
claim names. -/
theorem C7_malformed_callback_not_distinct :
    (({ ImplicitUserTokenBuilder.new with csrf := some "s" }
        : ImplicitUserTokenBuilder).get_user_token (.ok sampleValidated)
        (some "s") none none none 0).1 =
      .error (ImplicitUserTokenExchangeError.twitchError none none) ∧
    ImplicitUserTokenExchangeError.twitchError none none ≠
      ImplicitUserTokenExchangeError.malformedCallback := by decide

/-- C7 amended: after the implicit-flow CSRF check passes, exactly one of
two outcomes occurs: if `access_token` is present and both `error` and
`error_description` are absent, the token is validated and a `UserToken` is
produced with `refresh_token = None` and no client secret; for every other
combination the call fails (before any network call) with the provider
error carrying exactly the supplied `error`/`error_description` — when
neither a token nor an error was supplied this is the provider error with
both fields absent, which signals the malformed callback, not a distinct
`MalformedCallback` variant. -/
theorem C7_implicit_exchange_outcomes (b : ImplicitUserTokenBuilder)
    (v : ValidatedToken) (validate : Except ValidationError ValidatedToken)
    (login uid s token : String) (a e d : Option String) (now : Nat)
    (hc : b.csrf = some s) :
    (validate = .ok v → v.login = some login → v.user_id = some uid →
      ∃ t : UserToken,
        b.get_user_token validate (some s) (some token) none none now =
          (.ok t, 1) ∧
        t.refresh_token = none ∧ t.client_secret = none) ∧
    (a = none ∨ e ≠ none ∨ d ≠ none →
      b.get_user_token validate (some s) a e d now =
        (.error (ImplicitUserTokenExchangeError.twitchError e d), 0)) := by
  constructor
  · intro hv hl hu
    subst hv
    unfold ImplicitUserTokenBuilder.get_user_token
    simp only [hc, Option.getD_some]
    rw [if_neg (fun hh => hh rfl)]
    simp only [UserToken.from_existing, hl, hu]
    exact ⟨_, rfl, rfl, rfl⟩
  · intro h
    unfold ImplicitUserTokenBuilder.get_user_token
    simp only [hc, Option.getD_some]
    rw [if_neg (fun hh => hh rfl)]
    rcases a with _ | t2 <;> rcases e with _ | e1 <;> rcases d with _ | d1 <;>
      first
        | rfl
        | (exfalso; rcases h with h | h | h <;> simp at h)

/-- Witness for C7 amended: a concrete matching-state builder, with the
success shape and with an `access_denied` error shape. -/
theorem C7_implicit_exchange_outcomes_witness :
    (((.ok sampleValidated : Except ValidationError ValidatedToken) =
        .ok sampleValidated →
      sampleValidated.login = some "somelogin" →
      sampleValidated.user_id = some "42" →
      ∃ t : UserToken,
        ({ ImplicitUserTokenBuilder.new with csrf := some "s" }
          : ImplicitUserTokenBuilder).get_user_token (.ok sampleValidated)
            (some "s") (some "abc") none none 7 = (.ok t, 1) ∧
        t.refresh_token = none ∧ t.client_secret = none) ∧
    ((some "abc" : Option String) = none ∨
        (none : Option String) ≠ none ∨ (none : Option String) ≠ none →
      ({ ImplicitUserTokenBuilder.new with csrf := some "s" }
        : ImplicitUserTokenBuilder).get_user_token (.ok sampleValidated)
          (some "s") (some "abc") none none 7 =
        (.error (ImplicitUserTokenExchangeError.twitchError none none), 0))) ∧
    (((.ok sampleValidated : Except ValidationError ValidatedToken) =
        .ok sampleValidated →
      sampleValidated.login = some "somelogin" →
      sampleValidated.user_id = some "42" →
      ∃ t : UserToken,
        ({ ImplicitUserTokenBuilder.new with csrf := some "s" }
          : ImplicitUserTokenBuilder).get_user_token (.ok sampleValidated)
            (some "s") (some "abc") none none 7 = (.ok t, 1) ∧
        t.refresh_token = none ∧ t.client_secret = none) ∧
    ((none : Option String) = none ∨
        (some "access_denied" : Option String) ≠ none ∨
        (none : Option String) ≠ none →
      ({ ImplicitUserTokenBuilder.new with csrf := some "s" }
        : ImplicitUserTokenBuilder).get_user_token (.ok sampleValidated)
          (some "s") none (some "access_denied") none 7 =
        (.error (ImplicitUserTokenExchangeError.twitchError
          (some "access_denied") none), 0))) :=
  ⟨C7_implicit_exchange_outcomes _ sampleValidated (.ok sampleValidated)
      "somelogin" "42" "s" "abc" (some "abc") none none 7 rfl,
   C7_implicit_exchange_outcomes _ sampleValidated (.ok sampleValidated)
      "somelogin" "42" "s" "abc" none (some "access_denied") none 7 rfl⟩

/-- C8 (code bug): `from_existing` maps a validation response that omits
the user id to `NoLogin`, not to the distinct `NoUserId` the specification
prescribes — line 112 of the source reuses `ValidationError::NoLogin` for
the missing `user_id` field. A missing login correctly yields `NoLogin`. -/
theorem C8_missing_user_id_error :
    UserToken.from_existing
        (.ok { sampleValidated with user_id := none }) "a" none none 0 =
      .error ValidationError.noLogin ∧
    UserToken.from_existing
        (.ok { sampleValidated with login := none }) "a" none none 0 =
      .error ValidationError.noLogin ∧
    ValidationError.noLogin ≠ ValidationError.noUserId := by decide

/-- C9 counterexample: a non-success status other than 400/403 whose body
IS a parseable structured error (`{status := 500, message := "oops"}`) does
not yield a provider error carrying the parsed body: the exchange returns
the generic provider error with the message `"<censored>"`. -/
theorem C9_parseable_500_censored :
    (({ UserTokenBuilder.new "cid" "sec" "https://r" with csrf := some "s" }
        : UserTokenBuilder).get_user_token
        (.ok { status_code := 500,
               errorBody := some { status := 500, message := "oops" },
               tokenBody := none })
        (.ok sampleValidated) "s" "code" 0).1 =
      .error (UserTokenExchangeError.twitchError
        { status := 500, message := "<censored>" }) ∧
    ({ status := 500, message := "<censored>" } : TwitchTokenErrorResponse) ≠
      { status := 500, message := "oops" } := by decide

/-- C9 amended: in the authorization-code exchange, a response with status
400 or 403 and a parseable structured error body yields a provider error
carrying the parsed body; a 400/403 response with an unparseable body
yields a parse error; every other non-success status yields the generic
provider error preserving the raw status code with the message redacted to
`"<censored>"`, regardless of the body. -/
theorem C9_status_error_handling (b : UserTokenBuilder) (state code : String)
    (validate : Except ValidationError ValidatedToken)
    (resp : HttpResponseModel) (body : TwitchTokenErrorResponse) (now : Nat)
    (hc : b.csrf = some state) :
    ((resp.status_code = 400 ∨ resp.status_code = 403) →
      resp.errorBody = some body →
      b.get_user_token (.ok resp) validate state code now =
        (.error (UserTokenExchangeError.twitchError body), 1)) ∧
    ((resp.status_code = 400 ∨ resp.status_code = 403) →
      resp.errorBody = none →
      b.get_user_token (.ok resp) validate state code now =
        (.error UserTokenExchangeError.parseError, 1)) ∧
    (resp.status_code ≠ 200 →
      ¬(resp.status_code = 400 ∨ resp.status_code = 403) →
      b.get_user_token (.ok resp) validate state code now =
        (.error (UserTokenExchangeError.twitchError
          { status := resp.status_code, message := "<censored>" }), 1)) := by
  refine ⟨?_, ?_, ?_⟩
  · intro h4 hb
    unfold UserTokenBuilder.get_user_token
    simp only [hc]
    rw [if_neg (fun hh => hh rfl)]
    have h200 : ¬resp.status_code = 200 := by rcases h4 with h | h <;> omega
    rw [if_neg h200, if_pos h4, hb]
  · intro h4 hb
    unfold UserTokenBuilder.get_user_token
    simp only [hc]
    rw [if_neg (fun hh => hh rfl)]
    have h200 : ¬resp.status_code = 200 := by rcases h4 with h | h <;> omega
    rw [if_neg h200, if_pos h4, hb]
  · intro h200 h4
    unfold UserTokenBuilder.get_user_token
    simp only [hc]
    rw [if_neg (fun hh => hh rfl)]
    rw [if_neg h200, if_neg h4]

/-- Witness for C9 amended: a parsed 400 response and a censored 500
response against a concrete matching-state builder. -/
theorem C9_status_error_handling_witness :
    (((400 = 400 ∨ 400 = 403) →
      (some { status := 400, message := "bad" } :
          Option TwitchTokenErrorResponse) =
        some { status := 400, message := "bad" } →
      ({ UserTokenBuilder.new "cid" "sec" "https://r" with csrf := some "s" }
        : UserTokenBuilder).get_user_token
          (.ok { status_code := 400,
                 errorBody := some { status := 400, message := "bad" },
                 tokenBody := none })
          (.ok sampleValidated) "s" "code" 0 =
        (.error (UserTokenExchangeError.twitchError
          { status := 400, message := "bad" }), 1))) ∧
    ((500 ≠ 200) → ¬(500 = 400 ∨ 500 = 403) →
      ({ UserTokenBuilder.new "cid" "sec" "https://r" with csrf := some "s" }
        : UserTokenBuilder).get_user_token
          (.ok { status_code := 500,
                 errorBody := some { status := 500, message := "oops" },
                 tokenBody := none })
          (.ok sampleValidated) "s" "code" 0 =
        (.error (UserTokenExchangeError.twitchError
          { status := 500, message := "<censored>" }), 1)) :=
  ⟨(C9_status_error_handling _ "s" "code" (.ok sampleValidated)
      { status_code := 400,
        errorBody := some { status := 400, message := "bad" },
        tokenBody := none }
      { status := 400, message := "bad" } 0 rfl).1,
   (C9_status_error_handling _ "s" "code" (.ok sampleValidated)
      { status_code := 500,
        errorBody := some { status := 500, message := "oops" },
        tokenBody := none }
      { status := 500, message := "oops" } 0 rfl).2.2⟩

end TwitchOAuth
